import Mathlib

/-!
Verification of the construction-project monitoring service
(`src/backend/app.py`, `src/frontend/app.py`).

The repository is a Flask REST API plus a Streamlit dashboard over one
PostgreSQL schema (created in `_create_tables_if_not_exists` in
`src/frontend/app.py`).  Every route follows one of two templates:
parameterized INSERT/SELECT/DELETE with a fixed column list, or a dynamic
UPDATE whose SET clause is concatenated from caller-supplied field names.

This file gives a shallow embedding of the routes the claims touch:

* `JVal` models JSON values as decoded by `request.get_json()` /
  psycopg2 parameters (JSON `null` decodes to Python `None`, modelled
  as `JVal.null`).
* `Row` models a table row: the `id` column plus the remaining columns
  as an association list.
* `runUpdate` models executing the dynamically-built
  `UPDATE <table> SET k1 = %s, ... WHERE id = %s RETURNING id;`
  against PostgreSQL: a key that is not a column of the table's schema
  makes the statement fail (undefined-column error); otherwise every row
  matching the id is updated and the post-update id of the first such
  row is returned.  Keys are treated as plain identifiers, exactly what
  the dashboard's edit forms send.
* The per-route functions (`update_supplier`, `update_project`,
  `delete_client`, `add_project`, `get_project`, `delete_project`,
  `register_user`, `login_user`, `get_document_versions`,
  `update_project_document`) mirror the Python handlers line by line,
  returning the HTTP status code the handler produces together with the
  database state after the call.  A database error caught by the
  handlers' generic `except Exception` branch yields status 500 and, as
  the failed transaction is never committed, an unchanged state.
-/

/-- A JSON value as seen by the Python handlers (`request.get_json()`).
JSON `null` becomes Python `None`. -/
inductive JVal : Type
  | str (s : String)
  | num (n : Int)
  | boolean (b : Bool)
  | null
  deriving DecidableEq, Repr

namespace JVal

/-- Python truthiness of a JSON value (`not x` in the handlers'
required-field checks): empty string, zero, `False` and `None` are falsy. -/
def truthy : JVal → Bool
  | .str s => !(s = "")
  | .num n => !(n = 0)
  | .boolean b => b
  | .null => false

end JVal

/-- Result of `data.get(key)` in Python: `none` when the key is absent. -/
def jget (data : List (String × JVal)) (key : String) : Option JVal :=
  (data.find? (fun p => decide (p.1 = key))).map (fun p => p.2)

/-- `not data.get(key)`: the key is absent or its value is falsy. -/
def notTruthyOpt : Option JVal → Bool
  | some v => !v.truthy
  | none => true

/-- `data.get(key) is None`: the key is absent or its value is JSON null
(which `request.get_json()` decodes to Python `None`). -/
def isNoneOpt : Option JVal → Bool
  | some .null => true
  | some _ => false
  | none => true

/-- A table row: the `id` column and the remaining columns as an
association list (column name, value). -/
structure Row : Type where
  id : JVal
  fields : List (String × JVal)
  deriving DecidableEq, Repr

/-- Look up a column of a row's non-id fields. -/
def lookupField (fields : List (String × JVal)) (key : String) : Option JVal :=
  (fields.find? (fun p => decide (p.1 = key))).map (fun p => p.2)

/-- Overwrite (or append) one column in a row's field list, modelling one
`column = %s` assignment of an UPDATE's SET clause. -/
def setField : List (String × JVal) → String → JVal → List (String × JVal)
  | [], k, v => [(k, v)]
  | (k', v') :: rest, k, v =>
      if k' = k then (k, v) :: rest else (k', v') :: setField rest k v

/-- Apply a list of SET assignments to a row, left to right.  Assigning to
the `id` column overwrites the row's identifier, exactly as
`UPDATE t SET id = %s` does in PostgreSQL. -/
def applySets (r : Row) : List (String × JVal) → Row
  | [] => r
  | (k, v) :: rest =>
      applySets (if k = "id" then { r with id := v } else { r with fields := setField r.fields k v }) rest

/-- All assignment targets are columns of the table's schema.  When this
fails, PostgreSQL rejects the dynamically-built statement with an
undefined-column error. -/
def colsOk (cols : List String) (pairs : List (String × JVal)) : Bool :=
  pairs.all (fun p => cols.contains p.1)

/-- Executing `UPDATE <table> SET ... WHERE id = %s RETURNING id;` built by
the handlers' loop: fails if some key is not a column; otherwise updates
every matching row and returns the post-update id of the first one
(`cur.fetchone()` on the RETURNING result), or `none` when no row matched. -/
def runUpdate (cols : List String) (table : List Row) (idv : JVal)
    (pairs : List (String × JVal)) : Except Unit (List Row × Option JVal) :=
  if colsOk cols pairs then
    match table.filter (fun r => decide (r.id = idv)) with
    | [] => .ok (table, none)
    | r :: _ =>
        .ok (table.map (fun r' => if r'.id = idv then applySets r' pairs else r'),
             some (applySets r pairs).id)
  else .error ()

/-- The database tables the claims touch.  The schema is the one created by
`_create_tables_if_not_exists` in `src/frontend/app.py`. -/
structure Db : Type where
  suppliers : List Row
  clients : List Row
  projects : List Row
  deriving DecidableEq, Repr

/-- Columns of the `suppliers` table. -/
def suppliersCols : List String :=
  ["id", "name", "cnpj_cpf", "contact", "address", "notes", "delivery_time",
   "payment_terms", "created_at"]

/-- Columns of the `clients` table. -/
def clientsCols : List String :=
  ["id", "name", "contact", "cnpj", "address", "notes", "created_at"]

/-- Columns of the `projects` table. -/
def projectsCols : List String :=
  ["id", "name", "client_id", "address", "start_date", "end_date", "status",
   "budget", "created_at"]

/-- Columns of the `project_documents` table. -/
def projectDocumentsCols : List String :=
  ["id", "project_id", "name", "type", "file_url", "size_kb", "upload_date",
   "uploaded_by", "notes", "created_at"]

/-- `PUT /suppliers/<id>` (`update_supplier` in `src/backend/app.py`):
build `key = %s` clauses from the JSON body, reject an empty body with 400,
then execute the dynamic UPDATE; a database error is caught by the generic
`except Exception` branch and reported as 500 with no commit. -/
def update_supplier (db : Db) (idv : JVal) (data : List (String × JVal)) :
    Nat × Db :=
  if data.isEmpty then (400, db)
  else
    match runUpdate suppliersCols db.suppliers idv data with
    | .error _ => (500, db)
    | .ok (t, some _) => (200, { db with suppliers := t })
    | .ok (_, none) => (404, db)

/-- `PUT /projects/<id>` (`update_project` in `src/backend/app.py`): same
template as `update_supplier`, over the `projects` table. -/
def update_project (db : Db) (idv : JVal) (data : List (String × JVal)) :
    Nat × Db :=
  if data.isEmpty then (400, db)
  else
    match runUpdate projectsCols db.projects idv data with
    | .error _ => (500, db)
    | .ok (t, some _) => (200, { db with projects := t })
    | .ok (_, none) => (404, db)

/-- `DELETE /clients/<id>` (`delete_client` in `src/backend/app.py`):
`DELETE FROM clients WHERE id = %s RETURNING id;`.  The schema declares
`projects.client_id REFERENCES clients(id) ON DELETE RESTRICT`, so when a
project still references the client PostgreSQL raises a foreign-key
violation; the handler's generic `except Exception` branch reports it as
500 and the transaction is never committed.  Otherwise a matching row is
deleted (200, returning the id) or 404 is reported. -/
def delete_client (db : Db) (idv : JVal) : Nat × Option JVal × Db :=
  match db.clients.filter (fun r => decide (r.id = idv)) with
  | [] => (404, none, db)
  | _ :: _ =>
      if db.projects.any (fun p => decide (lookupField p.fields "client_id" = some idv)) then
        (500, none, db)
      else
        (200, some idv,
         { db with clients := db.clients.filter (fun r => !decide (r.id = idv)) })

/-- `DELETE /projects/<id>` (`delete_project` in `src/backend/app.py`):
`DELETE FROM projects WHERE id = %s RETURNING id;`.  No table references
`projects` with a RESTRICT rule (services, documents and daily logs cascade),
so the delete succeeds whenever a row matches.  The cascaded child tables are
not part of `Db`. -/
def delete_project (db : Db) (idv : JVal) : Nat × Option JVal × Db :=
  match db.projects.filter (fun r => decide (r.id = idv)) with
  | [] => (404, none, db)
  | _ :: _ =>
      (200, some idv,
       { db with projects := db.projects.filter (fun r => !decide (r.id = idv)) })

/-- `GET /projects/<id>` (`get_project` in `src/backend/app.py`):
`SELECT p.*, c.name AS client_name FROM projects p JOIN clients c ON
p.client_id = c.id WHERE p.id = %s;` then 200 with the row or 404.  The
inner join pairs each matching project with its client's name. -/
def get_project (db : Db) (idv : JVal) : Nat × Option (Row × Option JVal) :=
  let joined := db.projects.filterMap (fun p =>
    if p.id = idv then
      match lookupField p.fields "client_id" with
      | some cid =>
          match db.clients.find? (fun c => decide (c.id = cid)) with
          | some c => some (p, lookupField c.fields "name")
          | none => none
      | none => none
    else none)
  match joined with
  | [] => (404, none)
  | x :: _ => (200, some x)

/-- `POST /projects` (`add_project` in `src/backend/app.py`): reads
name, client_id, address, start_date, end_date, status (defaulting to
"Em Planejamento" when the key is absent) and budget from the JSON body;
rejects with 400 when any of the first five is absent or falsy, or when
budget is absent or `None`.  Otherwise it executes the INSERT: the schema
declares `projects.client_id REFERENCES clients(id)`, so a client_id that
matches no stored client makes the insert raise a foreign-key violation,
caught by the generic `except Exception` branch and reported as 500 with
no commit; a valid reference inserts the row (id generated by the
database, modelled by the `nextId` argument) and returns 201. -/
def add_project (nextId : JVal) (db : Db) (data : List (String × JVal)) :
    Nat × Db :=
  let name := jget data "name"
  let client_id := jget data "client_id"
  let address := jget data "address"
  let start_date := jget data "start_date"
  let end_date := jget data "end_date"
  let status := match jget data "status" with
    | none => JVal.str "Em Planejamento"
    | some v => v
  let budget := jget data "budget"
  if notTruthyOpt name || notTruthyOpt client_id || notTruthyOpt address ||
     notTruthyOpt start_date || notTruthyOpt end_date || isNoneOpt budget then
    (400, db)
  else
    if db.clients.any (fun c => decide (c.id = client_id.getD .null)) then
      (201,
       { db with projects := db.projects ++
          [{ id := nextId,
             fields := [("name", name.getD .null),
                        ("client_id", client_id.getD .null),
                        ("address", address.getD .null),
                        ("start_date", start_date.getD .null),
                        ("end_date", end_date.getD .null),
                        ("status", status),
                        ("budget", budget.getD .null)] }] })
    else (500, db)

/-- A stored user record (`users` table). -/
structure UserRec : Type where
  id : Nat
  email : String
  password_hash : String
  name : String
  role : String
  deriving DecidableEq, Repr

/-- Response of `POST /register`. -/
inductive RegResp : Type
  | badRequest
  | conflict
  | created (id : Nat)
  deriving DecidableEq, Repr

/-- HTTP status code of each `POST /register` response. -/
def regStatus : RegResp → Nat
  | .badRequest => 400
  | .conflict => 409
  | .created _ => 201

/-- `POST /register` (`register_user` in `src/backend/app.py`): 400 when
email or password is missing; otherwise hashes the password with
`bcrypt.generate_password_hash` (modelled by the abstract salted one-way
primitive `genHash`, an external collaborator per the spec) and inserts the
record.  The `UNIQUE` constraint on `users.email` makes the insert raise
`UniqueViolation` when the email is already stored, reported as 409 with no
commit; otherwise the new id is returned with 201.  The role defaults to
"Usuário" when absent. -/
def register_user (genHash : String → String) (nextId : Nat)
    (users : List UserRec) (email password name : String)
    (role : Option String) : RegResp × List UserRec :=
  if email = "" || password = "" then (.badRequest, users)
  else
    let hashed := genHash password
    if users.any (fun u => decide (u.email = email)) then (.conflict, users)
    else (.created nextId,
          users ++ [{ id := nextId, email := email, password_hash := hashed,
                      name := name, role := role.getD "Usuário" }])

/-- Response of `POST /login`. -/
inductive LoginResp : Type
  | badRequest
  | unauth (msg : String)
  | ok (user_id : Nat) (user_name user_role : String)
  deriving DecidableEq, Repr

/-- HTTP status code of each `POST /login` response. -/
def loginStatus : LoginResp → Nat
  | .badRequest => 400
  | .unauth _ => 401
  | .ok _ _ _ => 200

/-- `POST /login` (`login_user` in `src/backend/app.py`): 400 when email or
password is missing; otherwise `SELECT ... FROM users WHERE email = %s`
(email is unique, so `fetchone` is the only match) and
`bcrypt.check_password_hash`, modelled by the abstract verifier `check`.
Both failure paths — unknown email and non-matching password — return the
same literal 401 body `{"error": "Email ou senha inválidos"}`. -/
def login_user (check : String → String → Bool) (users : List UserRec)
    (email password : String) : LoginResp :=
  if email = "" || password = "" then .badRequest
  else
    match users.find? (fun u => decide (u.email = email)) with
    | some u =>
        if check u.password_hash password then .ok u.id u.name u.role
        else .unauth "Email ou senha inválidos"
    | none => .unauth "Email ou senha inválidos"

/-- A row of the `document_versions` table (columns the listing touches). -/
structure DocVersion : Type where
  id : Nat
  document_id : Nat
  version_number : Int
  created_at : Int
  deriving DecidableEq, Repr

/-- Insert an element into a list sorted descending by `key`, keeping it
sorted: model of the ordering PostgreSQL applies for `ORDER BY key DESC`. -/
def insertDescBy (key : α → Int) (x : α) : List α → List α
  | [] => [x]
  | y :: ys => if key y ≤ key x then x :: y :: ys else y :: insertDescBy key x ys

/-- Sort a list descending by `key` (insertion sort): model of
`ORDER BY key DESC`. -/
def sortDescBy (key : α → Int) : List α → List α
  | [] => []
  | x :: xs => insertDescBy key x (sortDescBy key xs)

/-- The list is in descending `key` order (adjacent pairs). -/
def sortedByDesc (key : α → Int) : List α → Bool
  | [] => true
  | [_] => true
  | a :: b :: rest => key b ≤ key a && sortedByDesc key (b :: rest)

/-- `GET /document_versions` (`get_document_versions` in
`src/backend/app.py`): with a `document_id` query parameter the rows are
filtered by it and ordered by `version_number DESC`; without it all rows
are returned ordered by `created_at DESC`. -/
def get_document_versions (table : List DocVersion) (document_id : Option Nat) :
    List DocVersion :=
  match document_id with
  | some d =>
      sortDescBy (fun v => v.version_number)
        (table.filter (fun v => decide (v.document_id = d)))
  | none => sortDescBy (fun v => v.created_at) table

/-- The SET-clause building loop of `update_project_document`
(`src/backend/app.py`): the external key `doc_type` targets the internal
column `type`; every other key targets the column of its own name. -/
def buildDocSetPairs : List (String × JVal) → List (String × JVal)
  | [] => []
  | (k, v) :: rest =>
      (if k = "doc_type" then "type" else k, v) :: buildDocSetPairs rest

/-- `PUT /project_documents/<id>` (`update_project_document` in
`src/backend/app.py`): same template as the other updates, but the SET
pairs are built by `buildDocSetPairs` (the `doc_type` → `type` alias). -/
def update_project_document (docs : List Row) (idv : JVal)
    (data : List (String × JVal)) : Nat × List Row :=
  let pairs := buildDocSetPairs data
  if pairs.isEmpty then (400, docs)
  else
    match runUpdate projectDocumentsCols docs idv pairs with
    | .error _ => (500, docs)
    | .ok (t, some _) => (200, t)
    | .ok (_, none) => (404, docs)

/-! ## Helper lemmas -/

/-- Applying SET assignments none of which targets the `id` column leaves
the row's identifier unchanged. -/
theorem applySets_id_of_no_id_key (r : Row) (pairs : List (String × JVal))
    (h : ∀ p ∈ pairs, p.1 ≠ "id") : (applySets r pairs).id = r.id := by
  induction pairs generalizing r with
  | nil => rfl
  | cons p rest ih =>
    obtain ⟨k, v⟩ := p
    have hk : k ≠ "id" := h (k, v) (List.mem_cons_self _ _)
    simp only [applySets, if_neg hk]
    exact ih _ (fun q hq => h q (List.mem_cons_of_mem _ hq))

/-- The per-row action of a dynamic UPDATE without an `id` assignment
preserves the column of identifiers. -/
theorem map_id_of_update_rows (table : List Row) (idv : JVal)
    (pairs : List (String × JVal)) (h : ∀ p ∈ pairs, p.1 ≠ "id") :
    (table.map (fun r' => if r'.id = idv then applySets r' pairs else r')).map Row.id
      = table.map Row.id := by
  induction table with
  | nil => rfl
  | cons r rest ih =>
    simp only [List.map_cons, ih]
    by_cases hr : r.id = idv
    · simp [hr, applySets_id_of_no_id_key _ _ h]
    · simp [hr]

/-- A successful dynamic UPDATE whose SET pairs do not mention `id`
preserves the table's identifiers. -/
theorem runUpdate_preserves_ids (cols : List String) (table : List Row)
    (idv : JVal) (pairs : List (String × JVal))
    (h : ∀ p ∈ pairs, p.1 ≠ "id") (t : List Row) (oid : Option JVal)
    (hr : runUpdate cols table idv pairs = .ok (t, oid)) :
    t.map Row.id = table.map Row.id := by
  unfold runUpdate at hr
  by_cases hc : colsOk cols pairs = true
  · rw [if_pos hc] at hr
    cases hf : table.filter (fun r => decide (r.id = idv)) with
    | nil =>
      rw [hf] at hr
      simp only [Except.ok.injEq, Prod.mk.injEq] at hr
      rw [← hr.1]
    | cons r rest =>
      rw [hf] at hr
      simp only [Except.ok.injEq, Prod.mk.injEq] at hr
      rw [← hr.1]
      exact map_id_of_update_rows table idv pairs h
  · rw [if_neg hc] at hr
    exact absurd hr (by simp)

/-! ## Claims -/

/-- C1 (evidence): `update` with an unrecognized field name does NOT fail
with ValidationError (400).  The handler has no allow-list: the key is
interpolated into the SET clause, the database rejects the statement
(undefined column) and the route reports 500 Internal.  The state is
unchanged because the failed transaction is never committed.  Concretely,
`PUT /suppliers/1` with body `{"bogus": "x"}` yields 500, not 400. -/
theorem update_unknown_field_gives_internal_error :
    update_supplier
      { suppliers := [{ id := JVal.num 1, fields := [("name", JVal.str "F")] }],
        clients := [], projects := [] }
      (JVal.num 1) [("bogus", JVal.str "x")]
    = (500,
       { suppliers := [{ id := JVal.num 1, fields := [("name", JVal.str "F")] }],
         clients := [], projects := [] }) ∧ (500 : Nat) ≠ 400 := by
  exact ⟨by decide, by decide⟩

/-- C2 (counterexample): an update whose partialFields contains the key
`id` DOES change the record's assigned identifier.  With one project whose
id is 1, `PUT /projects/1` with body `{"id": 2}` succeeds (200) and the
stored identifier becomes 2. -/
theorem update_id_field_changes_identifier_cex :
    (update_project
        { suppliers := [], clients := [],
          projects := [{ id := JVal.num 1, fields := [("name", JVal.str "Obra A")] }] }
        (JVal.num 1) [("id", JVal.num 2)]).1 = 200 ∧
    ((update_project
        { suppliers := [], clients := [],
          projects := [{ id := JVal.num 1, fields := [("name", JVal.str "Obra A")] }] }
        (JVal.num 1) [("id", JVal.num 2)]).2).projects.map Row.id
      = [JVal.num 2] := by
  exact ⟨by decide, by decide⟩

/-- C2 (amended): a project update whose partialFields does not contain the
key `id` leaves every project's identifier unchanged (hence any sequence of
such updates does); the un-amended claim fails because the dynamic SET
clause accepts the `id` column itself. -/
theorem update_without_id_key_preserves_identifiers
    (db : Db) (idv : JVal) (data : List (String × JVal))
    (h : ∀ p ∈ data, p.1 ≠ "id") :
    ((update_project db idv data).2).projects.map Row.id
      = db.projects.map Row.id := by
  unfold update_project
  cases hd : data.isEmpty with
  | true => simp
  | false =>
    simp only [Bool.false_eq_true, if_false]
    cases hru : runUpdate projectsCols db.projects idv data with
    | error e => simp
    | ok pr =>
      obtain ⟨t, oid⟩ := pr
      have hids := runUpdate_preserves_ids _ _ _ _ h t oid hru
      cases oid with
      | some j => simpa using hids
      | none => simp

/-- C2 (witness): the amended theorem at a concrete project and a concrete
name-only update. -/
theorem update_without_id_key_preserves_identifiers_witness :
    ((update_project
        { suppliers := [], clients := [],
          projects := [{ id := JVal.num 1, fields := [("name", JVal.str "Obra A")] }] }
        (JVal.num 1) [("name", JVal.str "Obra B")]).2).projects.map Row.id
      = [JVal.num 1] := by
  have := update_without_id_key_preserves_identifiers
    { suppliers := [], clients := [],
      projects := [{ id := JVal.num 1, fields := [("name", JVal.str "Obra A")] }] }
    (JVal.num 1) [("name", JVal.str "Obra B")] (by decide)
  simpa using this

/-- C3: `update(id, {})` fails with ValidationError (400) and leaves the
database untouched, for every state and every id — the emptiness check runs
before any database access, shown here for the projects and suppliers
update routes. -/
theorem update_empty_fields_rejected (db : Db) (idv : JVal) :
    update_project db idv [] = (400, db) ∧ update_supplier db idv [] = (400, db) :=
  ⟨rfl, rfl⟩

/-- C4 (counterexample): deleting a client referenced by an existing
project does NOT fail with Conflict (409).  The handler has no
foreign-key-violation branch, so the database's RESTRICT error falls into
the generic `except Exception` branch and the route reports 500 Internal
(the client row does remain). -/
theorem delete_referenced_client_cex :
    delete_client
      { suppliers := [],
        clients := [{ id := JVal.num 1, fields := [("name", JVal.str "C")] }],
        projects := [{ id := JVal.num 10, fields := [("client_id", JVal.num 1)] }] }
      (JVal.num 1)
    = (500, none,
       { suppliers := [],
         clients := [{ id := JVal.num 1, fields := [("name", JVal.str "C")] }],
         projects := [{ id := JVal.num 10, fields := [("client_id", JVal.num 1)] }] })
    ∧ (500 : Nat) ≠ 409 := by
  exact ⟨by decide, by decide⟩

/-- C4 (amended): for every client id referenced by at least one existing
project, delete of that client fails — with 500 Internal (the restrict
violation surfaces through the generic exception branch), not 409 — and the
database state, the client row included, is unchanged. -/
theorem delete_referenced_client_internal_error (db : Db) (idv : JVal)
    (hc : ∃ r ∈ db.clients, r.id = idv)
    (hp : ∃ p ∈ db.projects, lookupField p.fields "client_id" = some idv) :
    delete_client db idv = (500, none, db) := by
  unfold delete_client
  obtain ⟨r, hr, hrid⟩ := hc
  cases hf : db.clients.filter (fun r => decide (r.id = idv)) with
  | nil =>
    exfalso
    have := List.filter_eq_nil_iff.mp hf r hr
    simp [hrid] at this
  | cons x xs =>
    obtain ⟨p, hpmem, hpc⟩ := hp
    have hany : db.projects.any
        (fun p => decide (lookupField p.fields "client_id" = some idv)) = true :=
      List.any_eq_true.mpr ⟨p, hpmem, by simp [hpc]⟩
    simp [hany]

/-- C4 (witness): the amended theorem at a concrete referenced client. -/
theorem delete_referenced_client_internal_error_witness :
    delete_client
      { suppliers := [],
        clients := [{ id := JVal.num 3, fields := [("name", JVal.str "D")] }],
        projects := [{ id := JVal.num 11, fields := [("client_id", JVal.num 3)] }] }
      (JVal.num 3)
    = (500, none,
       { suppliers := [],
         clients := [{ id := JVal.num 3, fields := [("name", JVal.str "D")] }],
         projects := [{ id := JVal.num 11, fields := [("client_id", JVal.num 3)] }] }) := by
  exact delete_referenced_client_internal_error _ _
    ⟨{ id := JVal.num 3, fields := [("name", JVal.str "D")] }, by decide, by decide⟩
    ⟨{ id := JVal.num 11, fields := [("client_id", JVal.num 3)] }, by decide, by decide⟩

/-- Setting a column then reading it back yields the written value. -/
theorem lookupField_setField (fs : List (String × JVal)) (k : String) (v : JVal) :
    lookupField (setField fs k v) k = some v := by
  induction fs with
  | nil => simp [setField, lookupField]
  | cons p rest ih =>
    obtain ⟨k', v'⟩ := p
    by_cases hk : k' = k
    · simp [setField, hk, lookupField]
    · simp only [setField, if_neg hk]
      unfold lookupField
      rw [List.find?_cons_of_neg _ (by simp [hk])]
      exact ih

/-- C5: the `project_documents` update builder maps the external key
`doc_type` to the internal column `type` and every other key to the column
of the same name; consequently an update whose partialFields is
`{"doc_type": v}` stores `v` under the row's `type` column. -/
theorem project_document_update_alias (data : List (String × JVal)) :
    buildDocSetPairs data
      = data.map (fun p => (if p.1 = "doc_type" then "type" else p.1, p.2)) ∧
    ∀ (r : Row) (v : JVal),
      lookupField (applySets r (buildDocSetPairs [("doc_type", v)])).fields "type"
        = some v := by
  constructor
  · induction data with
    | nil => rfl
    | cons p rest ih =>
      obtain ⟨k, w⟩ := p
      simp [buildDocSetPairs, ih]
  · intro r v
    have h1 : buildDocSetPairs [("doc_type", v)] = [("type", v)] := rfl
    rw [h1]
    show lookupField (applySets r [("type", v)]).fields "type" = some v
    simp only [applySets]
    rw [if_neg (by decide : ("type" : String) ≠ "id")]
    exact lookupField_setField r.fields "type" v

/-- C6: the two failing authenticate paths — an email with no user record,
and an existing email with a non-matching password — return the same
Unauthenticated response (401 with the same message), so the response does
not reveal whether the email exists; on a matching password the stored
name and role are returned. -/
theorem login_failure_indistinguishable
    (check : String → String → Bool) (users : List UserRec)
    (e1 p1 e2 p2 : String) (u : UserRec)
    (he1 : e1 ≠ "") (hp1 : p1 ≠ "") (he2 : e2 ≠ "") (hp2 : p2 ≠ "")
    (hnone : users.find? (fun w => decide (w.email = e1)) = none)
    (hsome : users.find? (fun w => decide (w.email = e2)) = some u)
    (hbad : check u.password_hash p2 = false) :
    login_user check users e1 p1 = login_user check users e2 p2 ∧
    login_user check users e1 p1 = .unauth "Email ou senha inválidos" ∧
    loginStatus (login_user check users e1 p1) = 401 ∧
    ∀ (e p : String) (v : UserRec), e ≠ "" → p ≠ "" →
      users.find? (fun w => decide (w.email = e)) = some v →
      check v.password_hash p = true →
      login_user check users e p = .ok v.id v.name v.role := by
  have h1 : login_user check users e1 p1 = .unauth "Email ou senha inválidos" := by
    simp [login_user, he1, hp1, hnone]
  have h2 : login_user check users e2 p2 = .unauth "Email ou senha inválidos" := by
    simp [login_user, he2, hp2, hsome, hbad]
  refine ⟨h1.trans h2.symm, h1, by rw [h1]; rfl, ?_⟩
  intro e p v he hp hfind hcheck
  simp [login_user, he, hp, hfind, hcheck]

/-- C6 (witness): a concrete store with one user; the unknown-email failure
and the wrong-password failure produce byte-identical responses, and the
right password returns the stored name and role. -/
theorem login_failure_indistinguishable_witness :
    login_user (fun h p => h == "H" && p == "right")
        [{ id := 1, email := "a@x", password_hash := "H",
           name := "Alice", role := "Admin" }] "b@x" "z"
      = login_user (fun h p => h == "H" && p == "right")
          [{ id := 1, email := "a@x", password_hash := "H",
             name := "Alice", role := "Admin" }] "a@x" "wrong" ∧
    login_user (fun h p => h == "H" && p == "right")
        [{ id := 1, email := "a@x", password_hash := "H",
           name := "Alice", role := "Admin" }] "b@x" "z"
      = .unauth "Email ou senha inválidos" ∧
    login_user (fun h p => h == "H" && p == "right")
        [{ id := 1, email := "a@x", password_hash := "H",
           name := "Alice", role := "Admin" }] "a@x" "right"
      = .ok 1 "Alice" "Admin" := by
  have h := login_failure_indistinguishable
    (fun h p => h == "H" && p == "right")
    [{ id := 1, email := "a@x", password_hash := "H",
       name := "Alice", role := "Admin" }]
    "b@x" "z" "a@x" "wrong"
    { id := 1, email := "a@x", password_hash := "H", name := "Alice", role := "Admin" }
    (by decide) (by decide) (by decide) (by decide)
    (by decide) (by decide) (by decide)
  exact ⟨h.1, h.2.1,
    h.2.2.2 "a@x" "right"
      { id := 1, email := "a@x", password_hash := "H",
        name := "Alice", role := "Admin" }
      (by decide) (by decide) (by decide) (by decide)⟩

/-- C7: register with an email equal to a stored user's email fails with
Conflict (409) and creates no record; with a fresh email it stores the
salted one-way hash `genHash password` (never the plaintext, provided the
hash differs from it) and returns the new identifier with 201. -/
theorem register_conflict_and_hashing
    (genHash : String → String) (nextId : Nat) (users : List UserRec)
    (email password name : String) (role : Option String)
    (he : email ≠ "") (hp : password ≠ "") :
    ((∃ u ∈ users, u.email = email) →
        register_user genHash nextId users email password name role
          = (.conflict, users) ∧ regStatus RegResp.conflict = 409) ∧
    ((∀ u ∈ users, u.email ≠ email) →
        register_user genHash nextId users email password name role
          = (.created nextId,
             users ++ [{ id := nextId, email := email,
                         password_hash := genHash password,
                         name := name, role := role.getD "Usuário" }])
          ∧ regStatus (RegResp.created nextId) = 201) ∧
    (genHash password ≠ password →
        ∀ u ∈ (register_user genHash nextId users email password name role).2,
          u.password_hash = password → u ∈ users) := by
  refine ⟨?_, ?_, ?_⟩
  · rintro ⟨u, hu, hue⟩
    have hany : users.any (fun w => decide (w.email = email)) = true :=
      List.any_eq_true.mpr ⟨u, hu, by simp [hue]⟩
    exact ⟨by simp [register_user, he, hp, hany], rfl⟩
  · intro hall
    have hany : users.any (fun w => decide (w.email = email)) = false := by
      rw [List.any_eq_false]
      intro u hu
      simp [hall u hu]
    exact ⟨by simp [register_user, he, hp, hany], rfl⟩
  · intro hne u hu hupw
    by_cases hany : users.any (fun w => decide (w.email = email)) = true
    · simpa [register_user, he, hp, hany] using hu
    · rw [show (register_user genHash nextId users email password name role).2
            = users ++ [{ id := nextId, email := email,
                          password_hash := genHash password,
                          name := name, role := role.getD "Usuário" }] by
          simp [register_user, he, hp, Bool.eq_false_iff.mpr hany]] at hu
      rcases List.mem_append.mp hu with hin | hnew
      · exact hin
      · exfalso
        have : u.password_hash = genHash password := by
          simp only [List.mem_singleton] at hnew
          rw [hnew]
        exact hne (this ▸ hupw)

/-- C7 (witness): a duplicate email is rejected with Conflict and the store
is unchanged; a fresh email is stored with the hashed password and 201. -/
theorem register_conflict_and_hashing_witness :
    register_user (fun s => "h:" ++ s) 2
        [{ id := 1, email := "a@x", password_hash := "h:pw",
           name := "A", role := "Admin" }] "a@x" "secret" "B" none
      = (.conflict,
         [{ id := 1, email := "a@x", password_hash := "h:pw",
            name := "A", role := "Admin" }]) ∧
    register_user (fun s => "h:" ++ s) 2
        [{ id := 1, email := "a@x", password_hash := "h:pw",
           name := "A", role := "Admin" }] "b@x" "secret" "B" none
      = (.created 2,
         [{ id := 1, email := "a@x", password_hash := "h:pw",
            name := "A", role := "Admin" },
          { id := 2, email := "b@x", password_hash := "h:secret",
            name := "B", role := "Usuário" }]) := by
  refine ⟨?_, ?_⟩
  · exact ((register_conflict_and_hashing (fun s => "h:" ++ s) 2
      [{ id := 1, email := "a@x", password_hash := "h:pw",
         name := "A", role := "Admin" }] "a@x" "secret" "B" none
      (by decide) (by decide)).1
      ⟨{ id := 1, email := "a@x", password_hash := "h:pw",
         name := "A", role := "Admin" }, by decide, by decide⟩).1
  · exact ((register_conflict_and_hashing (fun s => "h:" ++ s) 2
      [{ id := 1, email := "a@x", password_hash := "h:pw",
         name := "A", role := "Admin" }] "b@x" "secret" "B" none
      (by decide) (by decide)).2.1 (by decide)).1

/-- Membership in the descending insertion. -/
theorem mem_insertDescBy (key : α → Int) (x b : α) (l : List α) :
    b ∈ insertDescBy key x l ↔ b = x ∨ b ∈ l := by
  induction l with
  | nil => simp [insertDescBy]
  | cons y ys ih =>
    by_cases hxy : key y ≤ key x
    · simp [insertDescBy, hxy]
    · simp only [insertDescBy, if_neg hxy, List.mem_cons, ih]
      tauto

/-- Descending insertion preserves the descending pairwise order. -/
theorem pairwise_insertDescBy (key : α → Int) (x : α) (l : List α)
    (h : l.Pairwise (fun a b => key b ≤ key a)) :
    (insertDescBy key x l).Pairwise (fun a b => key b ≤ key a) := by
  induction l with
  | nil => simp [insertDescBy]
  | cons y ys ih =>
    rw [List.pairwise_cons] at h
    obtain ⟨hy, hys⟩ := h
    by_cases hxy : key y ≤ key x
    · simp only [insertDescBy, if_pos hxy]
      rw [List.pairwise_cons]
      refine ⟨?_, List.pairwise_cons.mpr ⟨hy, hys⟩⟩
      intro b hb
      rcases List.mem_cons.mp hb with hb | hb
      · exact hb ▸ hxy
      · exact le_trans (hy b hb) hxy
    · simp only [insertDescBy, if_neg hxy]
      rw [List.pairwise_cons]
      refine ⟨?_, ih hys⟩
      intro b hb
      rcases (mem_insertDescBy key x b ys).mp hb with hb | hb
      · exact hb ▸ le_of_not_le hxy
      · exact hy b hb

/-- The descending insertion sort is sorted (pairwise). -/
theorem pairwise_sortDescBy (key : α → Int) (l : List α) :
    (sortDescBy key l).Pairwise (fun a b => key b ≤ key a) := by
  induction l with
  | nil => simp [sortDescBy]
  | cons x xs ih => exact pairwise_insertDescBy key x _ ih

/-- Pairwise descending order implies the adjacent-pairs check. -/
theorem sortedByDesc_of_pairwise (key : α → Int) (l : List α)
    (h : l.Pairwise (fun a b => key b ≤ key a)) :
    sortedByDesc key l = true := by
  induction l with
  | nil => rfl
  | cons a rest ih =>
    cases rest with
    | nil => rfl
    | cons b rest' =>
      rw [List.pairwise_cons] at h
      obtain ⟨ha, hrest⟩ := h
      simp only [sortedByDesc, Bool.and_eq_true]
      exact ⟨by simpa using ha b (List.mem_cons_self _ _), ih hrest⟩

/-- C8 (counterexample): without the `document_id` filter the listing is
ordered by `created_at DESC`, not by version number.  With two versions of
one document where version 1 was uploaded after version 2, the unfiltered
listing returns them in ascending version order. -/
theorem document_versions_unfiltered_order_cex :
    sortedByDesc (fun v => v.version_number)
      (get_document_versions
        [{ id := 1, document_id := 1, version_number := 1, created_at := 10 },
         { id := 2, document_id := 1, version_number := 2, created_at := 5 }]
        none) = false := by
  decide

/-- C8 (amended): the listing filtered by a `document_id` is sorted by
version number descending; the unfiltered listing is sorted by creation
time descending (not by version number). -/
theorem document_versions_ordering (table : List DocVersion) (d : Nat) :
    sortedByDesc (fun v => v.version_number)
      (get_document_versions table (some d)) = true ∧
    sortedByDesc (fun v => v.created_at)
      (get_document_versions table none) = true := by
  constructor
  · exact sortedByDesc_of_pairwise _ _ (pairwise_sortDescBy _ _)
  · exact sortedByDesc_of_pairwise _ _ (pairwise_sortDescBy _ _)

/-- `DELETE /projects/<id>` on a state with no matching row reports 404 and
changes nothing. -/
theorem delete_project_no_match (db : Db) (idv : JVal)
    (hall : ∀ r ∈ db.projects, r.id ≠ idv) :
    delete_project db idv = (404, none, db) := by
  unfold delete_project
  have hf : db.projects.filter (fun r => decide (r.id = idv)) = [] :=
    List.filter_eq_nil_iff.mpr (fun r hr => by simp [hall r hr])
  rw [hf]

/-- `GET /projects/<id>` on a state with no matching row reports 404. -/
theorem get_project_no_match (db : Db) (idv : JVal)
    (hall : ∀ r ∈ db.projects, r.id ≠ idv) :
    get_project db idv = (404, none) := by
  simp only [get_project]
  have hjoin : db.projects.filterMap (fun p =>
      if p.id = idv then
        match lookupField p.fields "client_id" with
        | some cid =>
            match db.clients.find? (fun c => decide (c.id = cid)) with
            | some c => some (p, lookupField c.fields "name")
            | none => none
        | none => none
      else none) = [] := by
    rw [List.filterMap_eq_nil_iff]
    intro p hp
    simp [hall p hp]
  rw [hjoin]

/-- C9: delete of an id with no matching project row returns 404; after a
successful delete of an existing id, a subsequent get or delete of that id
returns 404; and a successful delete returns the deleted id. -/
theorem delete_then_get_not_found (db : Db) (idv : JVal) :
    ((∀ r ∈ db.projects, r.id ≠ idv) → delete_project db idv = (404, none, db)) ∧
    ((∃ r ∈ db.projects, r.id = idv) →
      (delete_project db idv).1 = 200 ∧
      (delete_project db idv).2.1 = some idv ∧
      (get_project (delete_project db idv).2.2 idv).1 = 404 ∧
      delete_project (delete_project db idv).2.2 idv
        = (404, none, (delete_project db idv).2.2)) := by
  refine ⟨delete_project_no_match db idv, ?_⟩
  rintro ⟨r, hr, hrid⟩
  have hstep : delete_project db idv
      = (200, some idv,
         { db with projects := db.projects.filter (fun q => !decide (q.id = idv)) }) := by
    unfold delete_project
    cases hf : db.projects.filter (fun q => decide (q.id = idv)) with
    | nil =>
      exfalso
      have := List.filter_eq_nil_iff.mp hf r hr
      simp [hrid] at this
    | cons x xs => rfl
  have hnores : ∀ p ∈
      ({ db with projects := db.projects.filter (fun q => !decide (q.id = idv)) } : Db).projects,
      p.id ≠ idv := by
    intro p hp
    have := (List.mem_filter.mp hp).2
    simpa using this
  rw [hstep]
  refine ⟨rfl, rfl, ?_, ?_⟩
  · rw [get_project_no_match _ _ hnores]
  · exact delete_project_no_match _ _ hnores

/-- C9 (witness): a concrete state with one project; delete succeeds and
returns the id, then get and delete of the same id report 404. -/
theorem delete_then_get_not_found_witness :
    (delete_project
        { suppliers := [], clients := [],
          projects := [{ id := JVal.num 5, fields := [("client_id", JVal.num 1)] }] }
        (JVal.num 5)).1 = 200 ∧
    (delete_project
        { suppliers := [], clients := [],
          projects := [{ id := JVal.num 5, fields := [("client_id", JVal.num 1)] }] }
        (JVal.num 5)).2.1 = some (JVal.num 5) ∧
    (get_project (delete_project
        { suppliers := [], clients := [],
          projects := [{ id := JVal.num 5, fields := [("client_id", JVal.num 1)] }] }
        (JVal.num 5)).2.2 (JVal.num 5)).1 = 404 ∧
    delete_project (delete_project
        { suppliers := [], clients := [],
          projects := [{ id := JVal.num 5, fields := [("client_id", JVal.num 1)] }] }
        (JVal.num 5)).2.2 (JVal.num 5)
      = (404, none, (delete_project
          { suppliers := [], clients := [],
            projects := [{ id := JVal.num 5, fields := [("client_id", JVal.num 1)] }] }
          (JVal.num 5)).2.2) := by
  exact (delete_then_get_not_found _ _).2
    ⟨{ id := JVal.num 5, fields := [("client_id", JVal.num 1)] }, by decide, by decide⟩

/-- C10: the projects create route rejects with 400 (and inserts nothing)
exactly when name, client_id, address, start_date or end_date is absent or
falsy (empty string included) or budget is absent or null; budget alone is
tested against `None` rather than falsiness, so budget 0 with the other
required fields non-empty passes validation — the request is never a 400.
Past validation the INSERT runs: 201 when the client_id references a stored
client, 500 (foreign-key violation through the generic except branch) when
it does not. -/
theorem add_project_required_field_check (nextId : JVal) (db : Db)
    (data : List (String × JVal)) :
    (((add_project nextId db data).1 = 400) ↔
      (notTruthyOpt (jget data "name") || notTruthyOpt (jget data "client_id") ||
       notTruthyOpt (jget data "address") || notTruthyOpt (jget data "start_date") ||
       notTruthyOpt (jget data "end_date") || isNoneOpt (jget data "budget")) = true) ∧
    ((add_project nextId db data).1 = 400 → (add_project nextId db data).2 = db) ∧
    (∀ (n c a s e : JVal), n.truthy = true → c.truthy = true → a.truthy = true →
      s.truthy = true → e.truthy = true →
      (add_project nextId db
        [("name", n), ("client_id", c), ("address", a), ("start_date", s),
         ("end_date", e), ("budget", JVal.num 0)]).1 ≠ 400 ∧
      ((∃ cl ∈ db.clients, cl.id = c) →
        (add_project nextId db
          [("name", n), ("client_id", c), ("address", a), ("start_date", s),
           ("end_date", e), ("budget", JVal.num 0)]).1 = 201) ∧
      ((∀ cl ∈ db.clients, cl.id ≠ c) →
        (add_project nextId db
          [("name", n), ("client_id", c), ("address", a), ("start_date", s),
           ("end_date", e), ("budget", JVal.num 0)]).1 = 500)) := by
  refine ⟨?_, ?_, ?_⟩
  · by_cases hcond : (notTruthyOpt (jget data "name") || notTruthyOpt (jget data "client_id") ||
       notTruthyOpt (jget data "address") || notTruthyOpt (jget data "start_date") ||
       notTruthyOpt (jget data "end_date") || isNoneOpt (jget data "budget")) = true
    · simp [add_project, hcond]
    · by_cases hany : db.clients.any
          (fun cl => decide (cl.id = (jget data "client_id").getD .null)) = true
      · simp [add_project, hcond, hany]
      · simp [add_project, hcond, hany]
  · intro h400
    by_cases hcond : (notTruthyOpt (jget data "name") || notTruthyOpt (jget data "client_id") ||
       notTruthyOpt (jget data "address") || notTruthyOpt (jget data "start_date") ||
       notTruthyOpt (jget data "end_date") || isNoneOpt (jget data "budget")) = true
    · simp [add_project, hcond]
    · exfalso
      by_cases hany : db.clients.any
          (fun cl => decide (cl.id = (jget data "client_id").getD .null)) = true
      · simp [add_project, hcond, hany] at h400
      · simp [add_project, hcond, hany] at h400
  · intro n c a s e hn hc ha hs he
    have h1 : jget [("name", n), ("client_id", c), ("address", a), ("start_date", s),
        ("end_date", e), ("budget", JVal.num 0)] "name" = some n := rfl
    have h2 : jget [("name", n), ("client_id", c), ("address", a), ("start_date", s),
        ("end_date", e), ("budget", JVal.num 0)] "client_id" = some c := rfl
    have h3 : jget [("name", n), ("client_id", c), ("address", a), ("start_date", s),
        ("end_date", e), ("budget", JVal.num 0)] "address" = some a := rfl
    have h4 : jget [("name", n), ("client_id", c), ("address", a), ("start_date", s),
        ("end_date", e), ("budget", JVal.num 0)] "start_date" = some s := rfl
    have h5 : jget [("name", n), ("client_id", c), ("address", a), ("start_date", s),
        ("end_date", e), ("budget", JVal.num 0)] "end_date" = some e := rfl
    have h6 : jget [("name", n), ("client_id", c), ("address", a), ("start_date", s),
        ("end_date", e), ("budget", JVal.num 0)] "budget" = some (JVal.num 0) := rfl
    refine ⟨?_, ?_, ?_⟩
    · by_cases hany : db.clients.any (fun cl => decide (cl.id = c)) = true
      · simp only [add_project, h1, h2, h3, h4, h5, h6, notTruthyOpt, isNoneOpt,
          Option.getD_some]
        simp [hn, hc, ha, hs, he, hany]
      · simp only [add_project, h1, h2, h3, h4, h5, h6, notTruthyOpt, isNoneOpt,
          Option.getD_some]
        simp [hn, hc, ha, hs, he, hany]
    · rintro ⟨cl, hcl, hclid⟩
      have hany : db.clients.any (fun w => decide (w.id = c)) = true :=
        List.any_eq_true.mpr ⟨cl, hcl, by simp [hclid]⟩
      simp only [add_project, h1, h2, h3, h4, h5, h6, notTruthyOpt, isNoneOpt,
        Option.getD_some]
      simp [hn, hc, ha, hs, he, hany]
    · intro hall
      have hany : db.clients.any (fun w => decide (w.id = c)) = false := by
        rw [List.any_eq_false]
        intro cl hcl
        simp [hall cl hcl]
      simp only [add_project, h1, h2, h3, h4, h5, h6, notTruthyOpt, isNoneOpt,
        Option.getD_some]
      simp [hn, hc, ha, hs, he, hany]

/-- C10 (witness): a concrete create request with budget 0, all other
required fields non-empty and a client_id referencing a stored client is
not rejected by validation and is accepted with 201. -/
theorem add_project_required_field_check_witness :
    (add_project (JVal.num 7)
      { suppliers := [],
        clients := [{ id := JVal.num 1, fields := [("name", JVal.str "C")] }],
        projects := [] }
      [("name", JVal.str "Obra"), ("client_id", JVal.num 1),
       ("address", JVal.str "Rua 1"), ("start_date", JVal.str "2024-01-01"),
       ("end_date", JVal.str "2024-12-31"), ("budget", JVal.num 0)]).1 ≠ 400 ∧
    (add_project (JVal.num 7)
      { suppliers := [],
        clients := [{ id := JVal.num 1, fields := [("name", JVal.str "C")] }],
        projects := [] }
      [("name", JVal.str "Obra"), ("client_id", JVal.num 1),
       ("address", JVal.str "Rua 1"), ("start_date", JVal.str "2024-01-01"),
       ("end_date", JVal.str "2024-12-31"), ("budget", JVal.num 0)]).1 = 201 := by
  have h := (add_project_required_field_check (JVal.num 7)
      { suppliers := [],
        clients := [{ id := JVal.num 1, fields := [("name", JVal.str "C")] }],
        projects := [] } []).2.2
    (JVal.str "Obra") (JVal.num 1) (JVal.str "Rua 1") (JVal.str "2024-01-01")
    (JVal.str "2024-12-31")
    (by decide) (by decide) (by decide) (by decide) (by decide)
  exact ⟨h.1,
    h.2.1 ⟨{ id := JVal.num 1, fields := [("name", JVal.str "C")] },
      by decide, by decide⟩⟩
